import Mathlib

/-!
Shallow embedding of the booking domain logic of the Vehicle-booking
repository (FastAPI + service classes), covering:

* `app/non_crud_lib/cost_calculator.py` (`CostCalculator`)
* `app/non_crud_lib/validator.py` (`Validator`)
* `app/non_crud_lib/scheduler_service.py` (`SchedulerService`, key derivation)
* `app/non_crud_lib/report_generator.py` (`ReportGenerator`)
* `app/api/booking_routes.py` (`create_booking`, `delete_booking`,
  `calculate_booking_cost`)
* `app/crud/booking_crud.py` (`BookingCRUD`, over an explicit in-memory
  key/value store standing for the DynamoDB table)
* `app/models/booking.py` (`ServiceType`, `BookingStatus`, `Booking`,
  `BookingCreate`, `BookingUpdate`)

Monetary amounts and hour counts are modelled as rationals (`ℚ`); Python's
`round(x, 2)` is modelled exactly as round-half-to-even on rationals
(`round2`).  Instants are modelled as integer seconds on a proleptic
Gregorian day count; `datetime.fromisoformat` is modelled for the canonical
`YYYY-MM-DD` / `HH:MM[:SS]` shapes that the booking API exchanges.
Side effects (SNS / SQS / EventBridge calls) are modelled as intent values
returned by the route functions.
-/

namespace VehicleBooking

/-! ## Rounding: Python `round(x, 2)` (banker's rounding) on rationals -/

/-- Round a rational to the nearest integer, ties to even
(the semantics of Python's built-in `round` on exact values). -/
def halfEvenRound (q : ℚ) : ℤ :=
  if q - (⌊q⌋ : ℚ) < 1/2 then ⌊q⌋
  else if 1/2 < q - (⌊q⌋ : ℚ) then ⌊q⌋ + 1
  else if 2 ∣ ⌊q⌋ then ⌊q⌋ else ⌊q⌋ + 1

/-- Python `round(x, 2)`: round to two decimal places, ties to even. -/
def round2 (q : ℚ) : ℚ := (halfEvenRound (q * 100) : ℚ) / 100

theorem halfEvenRound_ge_floor (q : ℚ) : ⌊q⌋ ≤ halfEvenRound q := by
  unfold halfEvenRound
  split_ifs <;> omega

theorem halfEvenRound_le_floor_add_one (q : ℚ) :
    halfEvenRound q ≤ ⌊q⌋ + 1 := by
  unfold halfEvenRound
  split_ifs <;> omega

theorem halfEvenRound_mono {a b : ℚ} (hab : a ≤ b) :
    halfEvenRound a ≤ halfEvenRound b := by
  have hfl : ⌊a⌋ ≤ ⌊b⌋ := Int.floor_le_floor hab
  rcases lt_or_eq_of_le hfl with hlt | heq
  · calc halfEvenRound a ≤ ⌊a⌋ + 1 := halfEvenRound_le_floor_add_one a
      _ ≤ ⌊b⌋ := hlt
      _ ≤ halfEvenRound b := halfEvenRound_ge_floor b
  · -- same floor: compare fractional parts
    by_cases h1 : a - (⌊a⌋ : ℚ) < 1/2
    · have ha : halfEvenRound a = ⌊a⌋ := by
        unfold halfEvenRound
        rw [if_pos h1]
      rw [ha, heq]
      exact halfEvenRound_ge_floor b
    · by_cases h2 : 1/2 < b - (⌊b⌋ : ℚ)
      · have hb : halfEvenRound b = ⌊b⌋ + 1 := by
          unfold halfEvenRound
          have hnb : ¬ b - (⌊b⌋ : ℚ) < 1/2 := by linarith
          rw [if_neg hnb, if_pos h2]
        rw [hb, ← heq]
        exact halfEvenRound_le_floor_add_one a
      · -- fractional part of a is at least 1/2 and of b at most 1/2, so a = b
        have hab2 : a - (⌊a⌋ : ℚ) ≤ b - (⌊b⌋ : ℚ) := by
          rw [heq] at *
          linarith
        have : a = b := by
          have h1' : (1:ℚ)/2 ≤ a - (⌊a⌋ : ℚ) := le_of_not_lt h1
          have h2' : b - (⌊b⌋ : ℚ) ≤ 1/2 := le_of_not_lt h2
          rw [heq] at h1'
          linarith
        rw [this]

theorem round2_mono {a b : ℚ} (hab : a ≤ b) : round2 a ≤ round2 b := by
  unfold round2
  have h100 : a * 100 ≤ b * 100 := by linarith
  have := halfEvenRound_mono h100
  have hc : ((halfEvenRound (a * 100) : ℤ) : ℚ) ≤ ((halfEvenRound (b * 100) : ℤ) : ℚ) := by
    exact_mod_cast this
  linarith

/-! ## `app/models/booking.py`: enumerations -/

/-- `ServiceType` enumeration from `app/models/booking.py`. -/
inductive ServiceType
  | OIL_CHANGE
  | TIRE_ROTATION
  | BRAKE_SERVICE
  | ENGINE_DIAGNOSTIC
  | FULL_SERVICE
  | GENERAL_REPAIR
deriving DecidableEq, Repr

/-- The `.value` string of a `ServiceType` member. -/
def ServiceType.value : ServiceType → String
  | .OIL_CHANGE => "OIL_CHANGE"
  | .TIRE_ROTATION => "TIRE_ROTATION"
  | .BRAKE_SERVICE => "BRAKE_SERVICE"
  | .ENGINE_DIAGNOSTIC => "ENGINE_DIAGNOSTIC"
  | .FULL_SERVICE => "FULL_SERVICE"
  | .GENERAL_REPAIR => "GENERAL_REPAIR"

/-- `BookingStatus` enumeration from `app/models/booking.py`. -/
inductive BookingStatus
  | PENDING
  | CONFIRMED
  | IN_PROGRESS
  | COMPLETED
  | CANCELLED
deriving DecidableEq, Repr

/-! ## `app/non_crud_lib/cost_calculator.py`: `CostCalculator` -/

namespace CostCalculator

/-- `CostCalculator.BASE_PRICES` table.  In the Python source the lookup is
`BASE_PRICES.get(service_type, 100.00)`; every member of the closed
`ServiceType` enumeration is present in the table, so the `100.00` default
of that lookup is unreachable for enum members and the table is total. -/
def BASE_PRICES : ServiceType → ℚ
  | .OIL_CHANGE => 50
  | .TIRE_ROTATION => 40
  | .BRAKE_SERVICE => 150
  | .ENGINE_DIAGNOSTIC => 100
  | .FULL_SERVICE => 300
  | .GENERAL_REPAIR => 80

def LABOR_RATE_PER_HOUR : ℚ := 75

def WEEKEND_SURCHARGE_PERCENT : ℚ := 15

def URGENT_SERVICE_SURCHARGE : ℚ := 50

def TAX_RATE : ℚ := 8/100

/-- The itemized `breakdown` dictionary of `calculate_service_cost`. -/
structure Breakdown where
  base_service_cost : ℚ
  labor_cost : ℚ
  estimated_hours : ℚ
  labor_rate_per_hour : ℚ
  additional_parts_cost : ℚ
  weekend_surcharge : ℚ
  urgent_surcharge : ℚ
  subtotal : ℚ
  tax : ℚ
  tax_rate : String
deriving DecidableEq, Repr

/-- The dictionary returned by `calculate_service_cost`. -/
structure CostResult where
  service_type : String
  breakdown : Breakdown
  estimated_total : ℚ
  currency : String
deriving DecidableEq, Repr

/-- `CostCalculator.calculate_service_cost`, translated line by line from
`app/non_crud_lib/cost_calculator.py`. -/
def calculate_service_cost (service_type : ServiceType) (estimated_hours : ℚ)
    (is_weekend : Bool) (is_urgent : Bool) (additional_parts_cost : ℚ) :
    CostResult :=
  let base_cost := BASE_PRICES service_type
  let labor_cost := estimated_hours * LABOR_RATE_PER_HOUR
  let subtotal := base_cost + labor_cost + additional_parts_cost
  let weekend_surcharge :=
    if is_weekend then subtotal * (WEEKEND_SURCHARGE_PERCENT / 100) else 0
  let urgent_surcharge := if is_urgent then URGENT_SERVICE_SURCHARGE else 0
  let total_before_tax := subtotal + weekend_surcharge + urgent_surcharge
  let tax := total_before_tax * TAX_RATE
  let final_total := total_before_tax + tax
  { service_type := service_type.value
    breakdown :=
      { base_service_cost := round2 base_cost
        labor_cost := round2 labor_cost
        estimated_hours := estimated_hours
        labor_rate_per_hour := LABOR_RATE_PER_HOUR
        additional_parts_cost := round2 additional_parts_cost
        weekend_surcharge := round2 weekend_surcharge
        urgent_surcharge := round2 urgent_surcharge
        subtotal := round2 subtotal
        tax := round2 tax
        tax_rate := "8.0%" }
    estimated_total := round2 final_total
    currency := "USD" }

/-- The Python signature default `estimated_hours: float = 1.0`. -/
def defaultEstimatedHours : ℚ := 1

/-- A call of `calculate_service_cost` that omits the `estimated_hours`
argument: Python substitutes the signature default `1.0`. -/
def calculate_service_cost_noHours (service_type : ServiceType)
    (is_weekend : Bool) (is_urgent : Bool) (additional_parts_cost : ℚ) :
    CostResult :=
  calculate_service_cost service_type defaultEstimatedHours is_weekend
    is_urgent additional_parts_cost

end CostCalculator

/-! ## Instants and `datetime.fromisoformat`

Instants are integer seconds on a proleptic Gregorian day count starting at
0001-01-01.  `datetime.fromisoformat` is modelled for the canonical shapes
the booking API exchanges: `YYYY-MM-DD`, optionally followed by
`THH:MM` or `THH:MM:SS`; out-of-range fields are rejected like the Python
parser rejects them (`ValueError`). -/

def isLeapYear (y : ℕ) : Bool :=
  (y % 4 == 0 && y % 100 != 0) || y % 400 == 0

def daysInMonth (y m : ℕ) : ℕ :=
  match m with
  | 1 => 31
  | 2 => if isLeapYear y then 29 else 28
  | 3 => 31
  | 4 => 30
  | 5 => 31
  | 6 => 30
  | 7 => 31
  | 8 => 31
  | 9 => 30
  | 10 => 31
  | 11 => 30
  | 12 => 31
  | _ => 0

def daysBeforeMonth (y m : ℕ) : ℕ :=
  (List.range (m - 1)).foldl (fun acc i => acc + daysInMonth y (i + 1)) 0

def daysBeforeYear (y : ℕ) : ℕ :=
  (y - 1) * 365 + ((y - 1) / 4 - (y - 1) / 100 + (y - 1) / 400)

/-- Day number of a civil date (0001-01-01 is day 0). -/
def civilToDays (y m d : ℕ) : ℕ :=
  daysBeforeYear y + daysBeforeMonth y m + (d - 1)

def digitVal (c : Char) : ℕ := c.toNat - 48

def twoDigits (a b : Char) : Option ℕ :=
  if a.isDigit && b.isDigit then some (10 * digitVal a + digitVal b) else none

def fourDigits (a b c d : Char) : Option ℕ :=
  if a.isDigit && b.isDigit && c.isDigit && d.isDigit then
    some (1000 * digitVal a + 100 * digitVal b + 10 * digitVal c + digitVal d)
  else none

/-- Parse the time-of-day part (`HH:MM` or `HH:MM:SS`) to seconds. -/
def parseTimeChars : List Char → Option ℕ
  | [h1, h2, ':', m1, m2] =>
    (twoDigits h1 h2).bind fun h =>
    (twoDigits m1 m2).bind fun mi =>
    if h ≤ 23 && mi ≤ 59 then some (h * 3600 + mi * 60) else none
  | [h1, h2, ':', m1, m2, ':', s1, s2] =>
    (twoDigits h1 h2).bind fun h =>
    (twoDigits m1 m2).bind fun mi =>
    (twoDigits s1 s2).bind fun s =>
    if h ≤ 23 && mi ≤ 59 && s ≤ 59 then
      some (h * 3600 + mi * 60 + s)
    else none
  | _ => none

/-- Parse an ISO string to civil fields `(year, month, day, secondsOfDay)`. -/
def parseCivil (s : String) : Option (ℕ × ℕ × ℕ × ℕ) :=
  match s.data with
  | y1 :: y2 :: y3 :: y4 :: '-' :: m1 :: m2 :: '-' :: d1 :: d2 :: rest =>
    (fourDigits y1 y2 y3 y4).bind fun y =>
    (twoDigits m1 m2).bind fun mo =>
    (twoDigits d1 d2).bind fun d =>
    if 1 ≤ y && 1 ≤ mo && mo ≤ 12 && 1 ≤ d && d ≤ daysInMonth y mo then
      match rest with
      | [] => some (y, mo, d, 0)
      | 'T' :: timeChars => (parseTimeChars timeChars).map fun t => (y, mo, d, t)
      | _ => none
    else none
  | _ => none

/-- `datetime.fromisoformat`, as an instant in seconds. -/
def parseIsoDateTime (s : String) : Option ℤ :=
  (parseCivil s).map fun x =>
    ((civilToDays x.1 x.2.1 x.2.2.1 : ℕ) : ℤ) * 86400 + (x.2.2.2 : ℤ)

/-! ## `app/non_crud_lib/validator.py`: `Validator` -/

namespace Validator

/-- The dictionary `validate_booking_date` returns.  `booking_datetime`
(an ISO string in the Python code) is carried as the parsed instant. -/
structure DateValidationResult where
  is_valid : Bool
  message : String
  booking_datetime : Option ℤ
  hours_until_booking : Option ℚ
deriving DecidableEq, Repr

/-- `Validator.validate_booking_date`.  The Python body reads the clock via
`datetime.now()`; the instant it reads is the explicit `now` argument here,
which is the only way a pure embedding can express that ambient read. -/
def validate_booking_date (booking_date scheduled_time : String) (now : ℤ) :
    DateValidationResult :=
  match parseIsoDateTime (booking_date ++ "T" ++ scheduled_time) with
  | none =>
    { is_valid := false
      message := "Invalid date/time format: "
      booking_datetime := none
      hours_until_booking := none }
  | some b =>
    if b ≤ now then
      { is_valid := false
        message := "Booking date/time must be in the future"
        booking_datetime := some b
        hours_until_booking := none }
    else
      let hours_difference : ℚ := ((b - now : ℤ) : ℚ) / 3600
      if hours_difference < 1 then
        { is_valid := false
          message := "Booking must be at least 1 hour in advance"
          booking_datetime := some b
          hours_until_booking := none }
      else
        { is_valid := true
          message := "Valid booking date/time"
          booking_datetime := some b
          hours_until_booking := some (round2 hours_difference) }

/-- The dictionary `validate_service_eligibility` returns. -/
structure EligibilityResult where
  is_eligible : Bool
  service_type : String
  current_mileage : ℤ
  last_service_mileage : ℤ
  mileage_since_last_service : ℤ
  required_mileage : ℤ
  message : String
deriving DecidableEq, Repr

/-- The `mileage_requirements` table of `validate_service_eligibility`,
keyed by the raw service-type string. -/
def mileage_requirements : List (String × ℤ) :=
  [("OIL_CHANGE", 3000), ("TIRE_ROTATION", 5000), ("BRAKE_SERVICE", 10000),
   ("ENGINE_DIAGNOSTIC", 0), ("FULL_SERVICE", 10000), ("GENERAL_REPAIR", 0)]

/-- `Validator.validate_service_eligibility`: note the lookup
`mileage_requirements.get(service_type, 0)` defaults an unknown service
type to a required interval of `0`. -/
def validate_service_eligibility (vehicle_mileage last_service_mileage : ℤ)
    (service_type : String) : EligibilityResult :=
  let required_mileage := (mileage_requirements.lookup service_type).getD 0
  let mileage_since_last_service := vehicle_mileage - last_service_mileage
  let is_eligible : Bool := decide (required_mileage ≤ mileage_since_last_service)
  { is_eligible := is_eligible
    service_type := service_type
    current_mileage := vehicle_mileage
    last_service_mileage := last_service_mileage
    mileage_since_last_service := mileage_since_last_service
    required_mileage := required_mileage
    message :=
      if is_eligible then "Vehicle is eligible for service"
      else "Vehicle needs " ++
        toString (required_mileage - mileage_since_last_service) ++
        " more miles before next service" }

end Validator

/-! ## `app/non_crud_lib/scheduler_service.py`: `SchedulerService` -/

namespace SchedulerService

/-- Default of the `EVENTBRIDGE_RULE_NAME` configuration entry
(`app/config.py`); `SchedulerService.rule_name_prefix` is initialised from
that configuration entry. -/
def defaultRuleNameBase : String := "vehicle-service-reminders"

/-- The EventBridge rule name `schedule_booking_reminder` builds:
the configured rule-name base, a hyphen, then the booking id. -/
def scheduleRuleName (ruleNameBase booking_id : String) : String :=
  ruleNameBase ++ "-" ++ booking_id

/-- Result dictionary of `schedule_booking_reminder`; `reminder_datetime`
is carried as an instant. -/
structure SchedulerResult where
  status : String
  message : String
  rule_name : Option String
  reminder_datetime : Option ℤ
deriving DecidableEq, Repr

/-- `SchedulerService.schedule_booking_reminder`: parses the booking
instant, schedules 24 hours earlier under the derived rule name.  A parse
failure takes the `except` branch and reports an error result. -/
def schedule_booking_reminder (ruleNameBase booking_id booking_datetime : String) :
    SchedulerResult :=
  match parseIsoDateTime booking_datetime with
  | none =>
    { status := "error"
      message := "Failed to schedule reminder: "
      rule_name := none
      reminder_datetime := none }
  | some b =>
    { status := "success"
      message := "Booking reminder scheduled successfully"
      rule_name := some (scheduleRuleName ruleNameBase booking_id)
      reminder_datetime := some (b - 24 * 3600) }

end SchedulerService

/-! ## `app/models/booking.py`: records -/

/-- The `Booking` pydantic model. -/
structure Booking where
  booking_id : Option String
  customer_id : String
  vehicle_id : String
  service_center_id : String
  service_type : ServiceType
  booking_date : String
  scheduled_time : String
  status : BookingStatus
  estimated_cost : Option ℚ
  actual_cost : Option ℚ
  notes : Option String
  created_at : Option String
  updated_at : Option String
deriving DecidableEq, Repr

/-- The `BookingCreate` pydantic model. -/
structure BookingCreate where
  customer_id : String
  vehicle_id : String
  service_center_id : String
  service_type : ServiceType
  booking_date : String
  scheduled_time : String
  notes : Option String
deriving DecidableEq, Repr

/-- The `BookingUpdate` pydantic model.  Note: it has no `estimated_cost`
field; `none` stands for a field that was not passed (pydantic
`exclude_unset`). -/
structure BookingUpdate where
  service_type : Option ServiceType
  booking_date : Option String
  scheduled_time : Option String
  status : Option BookingStatus
  actual_cost : Option ℚ
  notes : Option String
deriving DecidableEq, Repr

/-- A `BookingUpdate` with no fields set.  This is also the value pydantic
produces for `BookingUpdate(estimated_cost=...)` in `create_booking`:
`estimated_cost` is not a declared field of `BookingUpdate`, so the keyword
is ignored under pydantic's default extra-field policy. -/
def BookingUpdate.empty : BookingUpdate := ⟨none, none, none, none, none, none⟩

/-! ## `app/crud/booking_crud.py`: `BookingCRUD`

The DynamoDB table is modelled as an explicit association list keyed by
`booking_id`; the generated `uuid4` id and `datetime.utcnow()` timestamp
are explicit arguments of the operations that the Python code draws from
the environment. -/

namespace BookingCRUD

/-- The bookings table: an association list keyed by `booking_id`. -/
abbrev Store := List (String × Booking)

/-- `table.put_item`: store an item under a key, replacing any previous
item with that key. -/
def put_item (store : Store) (booking_id : String) (b : Booking) : Store :=
  (booking_id, b) :: store.filter (fun p => !(p.1 == booking_id))

/-- `BookingCRUD.get_booking`. -/
def get_booking (store : Store) (booking_id : String) : Option Booking :=
  store.lookup booking_id

/-- `BookingCRUD.create_booking`: builds a `Booking` from the create
payload (status takes the model default `PENDING`, costs are unset) and
stores it. -/
def create_booking (store : Store) (booking_data : BookingCreate)
    (booking_id timestamp : String) : Booking × Store :=
  let booking : Booking :=
    { booking_id := some booking_id
      customer_id := booking_data.customer_id
      vehicle_id := booking_data.vehicle_id
      service_center_id := booking_data.service_center_id
      service_type := booking_data.service_type
      booking_date := booking_data.booking_date
      scheduled_time := booking_data.scheduled_time
      status := .PENDING
      estimated_cost := none
      actual_cost := none
      notes := booking_data.notes
      created_at := some timestamp
      updated_at := some timestamp }
  (booking, put_item store booking_id booking)

/-- The field merge of `BookingCRUD.update_booking`: every field present in
the update overwrites the stored one, `updated_at` is refreshed. -/
def applyUpdate (cur : Booking) (u : BookingUpdate) (timestamp : String) :
    Booking :=
  { cur with
    service_type := u.service_type.getD cur.service_type
    booking_date := u.booking_date.getD cur.booking_date
    scheduled_time := u.scheduled_time.getD cur.scheduled_time
    status := u.status.getD cur.status
    actual_cost := match u.actual_cost with
      | some v => some v
      | none => cur.actual_cost
    notes := match u.notes with
      | some v => some v
      | none => cur.notes
    updated_at := some timestamp }

/-- `BookingCRUD.update_booking`: `none` when the booking does not exist,
otherwise the updated booking and the new table state.  There is no status
guard of any kind: whatever status the update carries is applied. -/
def update_booking (store : Store) (booking_id : String)
    (booking_data : BookingUpdate) (timestamp : String) :
    Option (Booking × Store) :=
  match get_booking store booking_id with
  | none => none
  | some cur =>
    let updated := applyUpdate cur booking_data timestamp
    some (updated, put_item store booking_id updated)

/-- `BookingCRUD.delete_booking`: unconditionally deletes the key and
reports `True` (DynamoDB `delete_item` succeeds even for an absent key). -/
def delete_booking (store : Store) (booking_id : String) : Bool × Store :=
  (true, store.filter (fun p => !(p.1 == booking_id)))

end BookingCRUD

/-! ## `app/api/booking_routes.py`: route handlers

The SNS / SQS / EventBridge calls the handlers make are modelled as a list
of intent values returned alongside the result; `HTTPException` is the
error side of `Except`. -/

namespace BookingRoutes

open BookingCRUD

/-- A side effect a route handler requests from an external collaborator. -/
inductive Intent
  | confirmationNotice (customer_email : String) (booking : Booking)
  | cancellationNotice (customer_email : String) (booking : Booking)
  | enqueueBookingRequest (booking_id customer_id service_type : String)
  | reminderSchedule (result : SchedulerService.SchedulerResult)
  | descheduleEvent (rule_name : String)
deriving DecidableEq, Repr

/-- `fastapi.HTTPException`. -/
structure HttpError where
  status_code : ℕ
  detail : String
deriving DecidableEq, Repr

/-- The `estimated_hours=1.5` the `create_booking` handler passes to
`calculate_service_cost`. -/
def createBookingEstimatedHours : ℚ := 3/2

/-- The `create_booking` route handler.  `now` is the instant
`validate_booking_date` reads from the ambient clock, `booking_id` the
generated uuid4, `timestamp` the `utcnow` iso string, `ruleNameBase` the
configured EventBridge rule-name base. -/
def create_booking (booking_data : BookingCreate) (now : ℤ)
    (ruleNameBase booking_id timestamp : String) (store : Store) :
    Except HttpError (Booking × Store × List Intent) :=
  let validation :=
    Validator.validate_booking_date booking_data.booking_date
      booking_data.scheduled_time now
  if !validation.is_valid then .error ⟨400, validation.message⟩
  else
    -- `cost_estimate = calculate_service_cost(...)` is computed here, but
    -- the attempt to persist it, `BookingUpdate(estimated_cost=...)`,
    -- produces an update with no set fields (see `BookingUpdate.empty`),
    -- and the handler discards `update_booking`'s return value.
    let (booking, store1) :=
      BookingCRUD.create_booking store booking_data booking_id timestamp
    let store2 :=
      match BookingCRUD.update_booking store1 booking_id BookingUpdate.empty
        timestamp with
      | some (_, s) => s
      | none => store1
    let intents : List Intent :=
      [ .enqueueBookingRequest booking_id booking.customer_id
          booking.service_type.value
        , .confirmationNotice "customer@example.com" booking
        , .reminderSchedule
            (SchedulerService.schedule_booking_reminder ruleNameBase
              booking_id
              (booking.booking_date ++ "T" ++ booking.scheduled_time)) ]
    .ok (booking, store2, intents)

/-- The `delete_booking` route handler ("Delete/Cancel booking").  It looks
the booking up, emits the cancellation notice and the descheduling call
(whose rule name hardcodes the `vehicle-service-reminders` base), and
deletes the item — with no inspection of the booking's status. -/
def delete_booking (booking_id : String) (store : Store) :
    Except HttpError (String × Store × List Intent) :=
  match BookingCRUD.get_booking store booking_id with
  | none => .error ⟨404, "Booking not found"⟩
  | some booking =>
    let intents : List Intent :=
      [ .cancellationNotice "customer@example.com" booking
        , .descheduleEvent ("vehicle-service-reminders-" ++ booking_id) ]
    let (success, store') := BookingCRUD.delete_booking store booking_id
    if success then .ok ("Booking cancelled successfully", store', intents)
    else .error ⟨500, "Failed to delete booking"⟩

/-- Default of the `estimated_hours` query parameter of the
`calculate_booking_cost` route handler. -/
def calculateBookingCostDefaultHours : ℚ := 3/2

/-- The `calculate_booking_cost` route handler. -/
def calculate_booking_cost (booking_id : String) (estimated_hours : ℚ)
    (store : Store) : Except HttpError CostCalculator.CostResult :=
  match BookingCRUD.get_booking store booking_id with
  | none => .error ⟨404, "Booking not found"⟩
  | some booking =>
    .ok (CostCalculator.calculate_service_cost booking.service_type
      estimated_hours false false 0)

end BookingRoutes

/-! ## `app/non_crud_lib/report_generator.py`: `ReportGenerator`

The report functions consume booking dictionaries and read fields with
`dict.get`; a record field is `none` when the key is absent. -/

namespace ReportGenerator

/-- A booking record as the report functions read it. -/
structure RBooking where
  status : Option String
  service_type : Option String
  actual_cost : Option ℚ
  estimated_cost : Option ℚ
  booking_date : Option String
deriving DecidableEq, Repr

/-- Result wrapper of every report function: on an empty input collection
the `report` dictionary is empty (`none`). -/
structure ReportResult (α : Type) where
  status : String
  message : String
  report : Option α
deriving DecidableEq, Repr

/-- Increment a key of an insertion-ordered histogram
(`d[k] = d.get(k, 0) + 1`). -/
def histAdd : List (String × ℕ) → String → List (String × ℕ)
  | [], k => [(k, 1)]
  | (k', n) :: rest, k =>
    if k' == k then (k', n + 1) :: rest else (k', n) :: histAdd rest k

/-- Histogram of a string field over the records, missing keys counted
under `"UNKNOWN"`. -/
def histogramOf (get : RBooking → Option String) (bs : List RBooking) :
    List (String × ℕ) :=
  bs.foldl (fun h b => histAdd h ((get b).getD "UNKNOWN")) []

/-- Python truthiness of `booking.get(key)` for a cost value: the key must
be present and its value nonzero. -/
def truthyCost : Option ℚ → Option ℚ
  | some v => if v == 0 then none else some v
  | none => none

/-- Revenue contribution of one record in `generate_booking_summary_report`:
`actual_cost` if truthy, else `estimated_cost` if truthy, else nothing. -/
def summaryRevenue (b : RBooking) : ℚ :=
  match truthyCost b.actual_cost with
  | some v => v
  | none => (truthyCost b.estimated_cost).getD 0

/-- `booking.get('actual_cost', booking.get('estimated_cost', 0))`. -/
def historyCost (b : RBooking) : ℚ :=
  b.actual_cost.getD (b.estimated_cost.getD 0)

/-- `max(services_by_type, key=services_by_type.get)`: first key of maximal
count in insertion order; `"N/A"` when the histogram is empty. -/
def mostFrequent : List (String × ℕ) → String
  | [] => "N/A"
  | h :: t => (t.foldl (fun best p => if p.2 > best.2 then p else best) h).1

/-- The `report` body of `generate_booking_summary_report`. -/
structure SummaryReportBody where
  total_bookings : ℕ
  total_revenue : ℚ
  average_booking_value : ℚ
  by_status : List (String × ℕ)
  by_service_type : List (String × ℕ)
deriving DecidableEq, Repr

/-- `ReportGenerator.generate_booking_summary_report`. -/
def generate_booking_summary_report (bookings : List RBooking) :
    ReportResult SummaryReportBody :=
  if bookings.isEmpty then
    ⟨"success", "No bookings to generate report", none⟩
  else
    let total_bookings := bookings.length
    let total_revenue := bookings.foldl (fun acc b => acc + summaryRevenue b) 0
    ⟨"success", "Booking summary report generated",
      some
        { total_bookings := total_bookings
          total_revenue := round2 total_revenue
          average_booking_value :=
            if total_bookings > 0 then
              round2 (total_revenue / (total_bookings : ℚ))
            else 0
          by_status := histogramOf (fun b => b.status) bookings
          by_service_type := histogramOf (fun b => b.service_type) bookings }⟩

/-- The `report` body of `generate_customer_service_history`. -/
structure HistoryReportBody where
  total_services : ℕ
  total_amount_spent : ℚ
  average_service_cost : ℚ
  services_by_type : List (String × ℕ)
  most_frequent_service : String
deriving DecidableEq, Repr

/-- `ReportGenerator.generate_customer_service_history`. -/
def generate_customer_service_history (customer_bookings : List RBooking) :
    ReportResult HistoryReportBody :=
  if customer_bookings.isEmpty then
    ⟨"success", "No service history found", none⟩
  else
    let total_services := customer_bookings.length
    let total_spent :=
      customer_bookings.foldl (fun acc b => acc + historyCost b) 0
    let services_by_type :=
      histogramOf (fun b => b.service_type) customer_bookings
    ⟨"success", "Customer service history generated",
      some
        { total_services := total_services
          total_amount_spent := round2 total_spent
          average_service_cost :=
            if total_services > 0 then
              round2 (total_spent / (total_services : ℚ))
            else 0
          services_by_type := services_by_type
          most_frequent_service := mostFrequent services_by_type }⟩

/-- The `report` body of `generate_service_center_performance`. -/
structure PerfReportBody where
  total_bookings : ℕ
  completed_bookings : ℕ
  cancelled_bookings : ℕ
  completion_rate : ℚ
  cancellation_rate : ℚ
  total_revenue : ℚ
  average_revenue_per_booking : ℚ
deriving DecidableEq, Repr

/-- `ReportGenerator.generate_service_center_performance`. -/
def generate_service_center_performance
    (service_center_bookings : List RBooking) : ReportResult PerfReportBody :=
  if service_center_bookings.isEmpty then
    ⟨"success", "No bookings found for service center", none⟩
  else
    let total_bookings := service_center_bookings.length
    let completed_bookings :=
      (service_center_bookings.filter
        (fun b => b.status == some "COMPLETED")).length
    let cancelled_bookings :=
      (service_center_bookings.filter
        (fun b => b.status == some "CANCELLED")).length
    let completion_rate : ℚ :=
      if total_bookings > 0 then
        (completed_bookings : ℚ) / (total_bookings : ℚ) * 100
      else 0
    let cancellation_rate : ℚ :=
      if total_bookings > 0 then
        (cancelled_bookings : ℚ) / (total_bookings : ℚ) * 100
      else 0
    let total_revenue :=
      (service_center_bookings.filter
        (fun b => b.status == some "COMPLETED")).foldl
        (fun acc b => acc + b.actual_cost.getD 0) 0
    ⟨"success", "Service center performance report generated",
      some
        { total_bookings := total_bookings
          completed_bookings := completed_bookings
          cancelled_bookings := cancelled_bookings
          completion_rate := round2 completion_rate
          cancellation_rate := round2 cancellation_rate
          total_revenue := round2 total_revenue
          average_revenue_per_booking :=
            if completed_bookings > 0 then
              round2 (total_revenue / (completed_bookings : ℚ))
            else 0 }⟩

/-- `ReportGenerator._is_in_month`. -/
def is_in_month (date_string : String) (month year : ℕ) : Bool :=
  match parseCivil date_string with
  | some (y, mo, _, _) => mo == month && y == year
  | none => false

/-- The `report` body of `generate_monthly_report`. -/
structure MonthlyReportBody where
  month : ℕ
  year : ℕ
  total_bookings : ℕ
  total_revenue : ℚ
  average_booking_value : ℚ
deriving DecidableEq, Repr

/-- `ReportGenerator.generate_monthly_report`. -/
def generate_monthly_report (month year : ℕ) (all_bookings : List RBooking) :
    ReportResult MonthlyReportBody :=
  let monthly_bookings :=
    all_bookings.filter (fun b => is_in_month (b.booking_date.getD "") month year)
  if monthly_bookings.isEmpty then
    ⟨"success",
      "No bookings found for " ++ toString month ++ "/" ++ toString year,
      none⟩
  else
    let total_bookings := monthly_bookings.length
    let total_revenue :=
      monthly_bookings.foldl (fun acc b => acc + historyCost b) 0
    ⟨"success",
      "Monthly report generated for " ++ toString month ++ "/" ++
        toString year,
      some
        { month := month
          year := year
          total_bookings := total_bookings
          total_revenue := round2 total_revenue
          average_booking_value :=
            if total_bookings > 0 then
              round2 (total_revenue / (total_bookings : ℚ))
            else 0 }⟩

end ReportGenerator

/-! ## Spec-side definitions (for refinement comparisons) -/

namespace Spec

/-- The cost formula exactly as the spec words it, step by step: base from
the table, labor at 75/hour, subtotal, 15 percent weekend surcharge on the
subtotal, flat 50 urgent surcharge, 8 percent tax on the
surcharge-inclusive amount, total. -/
def orderedTotal (base hours : ℚ) (is_weekend is_urgent : Bool)
    (parts : ℚ) : ℚ :=
  let labor := hours * 75
  let subtotal := base + labor + parts
  let weekend_surcharge := if is_weekend then subtotal * (15/100) else 0
  let urgent_surcharge := if is_urgent then (50 : ℚ) else 0
  let pre_tax := subtotal + weekend_surcharge + urgent_surcharge
  let tax := pre_tax * (8/100)
  pre_tax + tax

end Spec

/-! ## Helper lemmas about the cost computation -/

/-- The raw (pre-rounding) total of `calculate_service_cost`. -/
def costTotalRaw (service_type : ServiceType) (estimated_hours : ℚ)
    (is_weekend is_urgent : Bool) (additional_parts_cost : ℚ) : ℚ :=
  let subtotal := CostCalculator.BASE_PRICES service_type +
    estimated_hours * CostCalculator.LABOR_RATE_PER_HOUR +
    additional_parts_cost
  let total_before_tax := subtotal +
    (if is_weekend then subtotal * (CostCalculator.WEEKEND_SURCHARGE_PERCENT / 100) else 0) +
    (if is_urgent then CostCalculator.URGENT_SERVICE_SURCHARGE else 0)
  total_before_tax + total_before_tax * CostCalculator.TAX_RATE

theorem calculate_service_cost_total (st : ServiceType) (h : ℚ)
    (wk urg : Bool) (p : ℚ) :
    (CostCalculator.calculate_service_cost st h wk urg p).estimated_total =
      round2 (costTotalRaw st h wk urg p) := rfl

theorem basePrice_nonneg (st : ServiceType) :
    0 ≤ CostCalculator.BASE_PRICES st := by
  cases st <;> norm_num [CostCalculator.BASE_PRICES]

/-! ## Claims -/

/-- C2: `calculate_service_cost` computes base, labor, subtotal, weekend
surcharge, urgent surcharge, tax on the surcharge-inclusive amount and
total in exactly the spec's fixed order (for every input its estimated
total is the spec-ordered formula, rounded to 2 decimals), and the
OIL_CHANGE / 1.5 hours / no flags / no parts scenario yields base 50.00,
labor 112.50, subtotal 162.50, zero surcharges, tax 13.00, total 175.50. -/
theorem claim_C2_cost_order_and_scenario :
    (∀ (st : ServiceType) (h : ℚ) (wk urg : Bool) (p : ℚ),
      (CostCalculator.calculate_service_cost st h wk urg p).estimated_total =
        round2 (Spec.orderedTotal (CostCalculator.BASE_PRICES st) h wk urg p))
    ∧ CostCalculator.calculate_service_cost .OIL_CHANGE (3/2) false false 0 =
      { service_type := "OIL_CHANGE"
        breakdown :=
          { base_service_cost := 50
            labor_cost := 225/2
            estimated_hours := 3/2
            labor_rate_per_hour := 75
            additional_parts_cost := 0
            weekend_surcharge := 0
            urgent_surcharge := 0
            subtotal := 325/2
            tax := 13
            tax_rate := "8.0%" }
        estimated_total := 351/2
        currency := "USD" } := by
  constructor
  · intro st h wk urg p
    rfl
  · simp only [CostCalculator.calculate_service_cost, ServiceType.value,
      CostCalculator.BASE_PRICES, CostCalculator.LABOR_RATE_PER_HOUR,
      CostCalculator.WEEKEND_SURCHARGE_PERCENT,
      CostCalculator.URGENT_SERVICE_SURCHARGE, CostCalculator.TAX_RATE,
      CostCalculator.CostResult.mk.injEq, CostCalculator.Breakdown.mk.injEq]
    norm_num [round2, halfEvenRound]

/-- C5 counterexample: with a negative parts cost the weekend flag strictly
decreases the estimated total (OIL_CHANGE, 0 hours, parts −200:
weekend-on total −186.30 is below weekend-off total −162.00), so the
claimed monotonicity over all inputs fails. -/
theorem claim_C5_counterexample :
    (CostCalculator.calculate_service_cost .OIL_CHANGE 0 true false
        (-200)).estimated_total <
      (CostCalculator.calculate_service_cost .OIL_CHANGE 0 false false
        (-200)).estimated_total := by
  rw [calculate_service_cost_total, calculate_service_cost_total]
  norm_num [costTotalRaw, CostCalculator.BASE_PRICES,
    CostCalculator.LABOR_RATE_PER_HOUR,
    CostCalculator.WEEKEND_SURCHARGE_PERCENT,
    CostCalculator.URGENT_SERVICE_SURCHARGE, CostCalculator.TAX_RATE,
    round2, halfEvenRound]

/-- C5 (amended): the estimated total is non-decreasing in
`estimated_hours`, in `additional_parts_cost` and in the urgent flag for
all inputs, and non-decreasing in the weekend flag whenever
`estimated_hours` and `additional_parts_cost` are nonnegative. -/
theorem claim_C5_monotonicity :
    (∀ (st : ServiceType) (h1 h2 : ℚ) (wk urg : Bool) (p : ℚ), h1 ≤ h2 →
      (CostCalculator.calculate_service_cost st h1 wk urg p).estimated_total ≤
        (CostCalculator.calculate_service_cost st h2 wk urg p).estimated_total)
    ∧ (∀ (st : ServiceType) (h : ℚ) (wk urg : Bool) (p1 p2 : ℚ), p1 ≤ p2 →
      (CostCalculator.calculate_service_cost st h wk urg p1).estimated_total ≤
        (CostCalculator.calculate_service_cost st h wk urg p2).estimated_total)
    ∧ (∀ (st : ServiceType) (h : ℚ) (urg : Bool) (p : ℚ), 0 ≤ h → 0 ≤ p →
      (CostCalculator.calculate_service_cost st h false urg p).estimated_total ≤
        (CostCalculator.calculate_service_cost st h true urg p).estimated_total)
    ∧ (∀ (st : ServiceType) (h : ℚ) (wk : Bool) (p : ℚ),
      (CostCalculator.calculate_service_cost st h wk false p).estimated_total ≤
        (CostCalculator.calculate_service_cost st h wk true p).estimated_total) := by
  refine ⟨?_, ?_, ?_, ?_⟩
  · intro st h1 h2 wk urg p hle
    rw [calculate_service_cost_total, calculate_service_cost_total]
    apply round2_mono
    unfold costTotalRaw CostCalculator.LABOR_RATE_PER_HOUR
      CostCalculator.WEEKEND_SURCHARGE_PERCENT
      CostCalculator.URGENT_SERVICE_SURCHARGE CostCalculator.TAX_RATE
    cases wk <;> cases urg <;> norm_num <;>
      nlinarith [basePrice_nonneg st]
  · intro st h wk urg p1 p2 hle
    rw [calculate_service_cost_total, calculate_service_cost_total]
    apply round2_mono
    unfold costTotalRaw CostCalculator.LABOR_RATE_PER_HOUR
      CostCalculator.WEEKEND_SURCHARGE_PERCENT
      CostCalculator.URGENT_SERVICE_SURCHARGE CostCalculator.TAX_RATE
    cases wk <;> cases urg <;> norm_num <;>
      nlinarith [basePrice_nonneg st]
  · intro st h urg p hh hp
    rw [calculate_service_cost_total, calculate_service_cost_total]
    apply round2_mono
    unfold costTotalRaw CostCalculator.LABOR_RATE_PER_HOUR
      CostCalculator.WEEKEND_SURCHARGE_PERCENT
      CostCalculator.URGENT_SERVICE_SURCHARGE CostCalculator.TAX_RATE
    cases urg <;> norm_num <;>
      nlinarith [basePrice_nonneg st]
  · intro st h wk p
    rw [calculate_service_cost_total, calculate_service_cost_total]
    apply round2_mono
    unfold costTotalRaw CostCalculator.LABOR_RATE_PER_HOUR
      CostCalculator.WEEKEND_SURCHARGE_PERCENT
      CostCalculator.URGENT_SERVICE_SURCHARGE CostCalculator.TAX_RATE
    cases wk <;> norm_num <;>
      nlinarith [basePrice_nonneg st]

/-- C5 witness: the four monotonicity statements at concrete inputs. -/
theorem claim_C5_monotonicity_witness :
    ((CostCalculator.calculate_service_cost .OIL_CHANGE 1 false false
        0).estimated_total ≤
      (CostCalculator.calculate_service_cost .OIL_CHANGE 2 false false
        0).estimated_total)
    ∧ ((CostCalculator.calculate_service_cost .FULL_SERVICE 1 false false
        0).estimated_total ≤
      (CostCalculator.calculate_service_cost .FULL_SERVICE 1 false false
        25).estimated_total)
    ∧ ((CostCalculator.calculate_service_cost .TIRE_ROTATION 1 false false
        10).estimated_total ≤
      (CostCalculator.calculate_service_cost .TIRE_ROTATION 1 true false
        10).estimated_total)
    ∧ ((CostCalculator.calculate_service_cost .BRAKE_SERVICE 1 false false
        0).estimated_total ≤
      (CostCalculator.calculate_service_cost .BRAKE_SERVICE 1 false true
        0).estimated_total) :=
  ⟨claim_C5_monotonicity.1 .OIL_CHANGE 1 2 false false 0 (by norm_num),
   claim_C5_monotonicity.2.1 .FULL_SERVICE 1 false false 0 25 (by norm_num),
   claim_C5_monotonicity.2.2.1 .TIRE_ROTATION 1 false 10 (by norm_num)
     (by norm_num),
   claim_C5_monotonicity.2.2.2 .BRAKE_SERVICE 1 false 0⟩

/-- C10: a call of `calculate_service_cost` that omits `estimated_hours`
uses the signature default of 1.0 hours (labor cost 75.00 for every
service type and flag combination), which differs from the 1.5 hours the
booking-submission flow passes explicitly. -/
theorem claim_C10_default_hours :
    CostCalculator.defaultEstimatedHours = 1
    ∧ (∀ (st : ServiceType) (wk urg : Bool) (p : ℚ),
      CostCalculator.calculate_service_cost_noHours st wk urg p =
        CostCalculator.calculate_service_cost st 1 wk urg p)
    ∧ (∀ (st : ServiceType) (wk urg : Bool) (p : ℚ),
      (CostCalculator.calculate_service_cost_noHours st wk urg
        p).breakdown.labor_cost = 75)
    ∧ BookingRoutes.createBookingEstimatedHours = 3/2
    ∧ CostCalculator.defaultEstimatedHours ≠
        BookingRoutes.createBookingEstimatedHours := by
  refine ⟨rfl, fun st wk urg p => rfl, fun st wk urg p => ?_, rfl, by
    norm_num [CostCalculator.defaultEstimatedHours,
      BookingRoutes.createBookingEstimatedHours]⟩
  show round2 (1 * CostCalculator.LABOR_RATE_PER_HOUR) = 75
  norm_num [round2, halfEvenRound, CostCalculator.LABOR_RATE_PER_HOUR]

/-! ## Concrete bookings and stores used as inputs -/

/-- A booking in the terminal `COMPLETED` status. -/
def exCompletedBooking : Booking :=
  { booking_id := some "b1"
    customer_id := "c1"
    vehicle_id := "v1"
    service_center_id := "s1"
    service_type := .OIL_CHANGE
    booking_date := "2026-10-13"
    scheduled_time := "12:00:00"
    status := .COMPLETED
    estimated_cost := some (351/2)
    actual_cost := some 180
    notes := none
    created_at := some "t0"
    updated_at := some "t0" }

/-- A store holding only the completed booking. -/
def exStore : BookingCRUD.Store := [("b1", exCompletedBooking)]

/-- An update that requests the `CANCELLED` status. -/
def cancelStatusUpdate : BookingUpdate :=
  { service_type := none
    booking_date := none
    scheduled_time := none
    status := some .CANCELLED
    actual_cost := none
    notes := none }

/-- `exCompletedBooking` after `cancelStatusUpdate` at time `"t1"`. -/
def exCancelledBooking : Booking :=
  { exCompletedBooking with status := .CANCELLED, updated_at := some "t1" }

/-- A create payload for an OIL_CHANGE booking. -/
def exCreateData : BookingCreate :=
  { customer_id := "c1"
    vehicle_id := "v1"
    service_center_id := "s1"
    service_type := .OIL_CHANGE
    booking_date := "2026-10-13"
    scheduled_time := "12:00:00"
    notes := none }

/-- The booking `create_booking` builds from `exCreateData` with id `"b1"`
and timestamp `"t0"`. -/
def exNewBooking : Booking :=
  { booking_id := some "b1"
    customer_id := "c1"
    vehicle_id := "v1"
    service_center_id := "s1"
    service_type := .OIL_CHANGE
    booking_date := "2026-10-13"
    scheduled_time := "12:00:00"
    status := .PENDING
    estimated_cost := none
    actual_cost := none
    notes := none
    created_at := some "t0"
    updated_at := some "t0" }

/-- C1 counterexample: cancelling (deleting) a booking whose status is the
terminal `COMPLETED` succeeds — it returns the success message, removes the
booking from the table and emits the cancellation intents — instead of
failing with a `StateTransitionError` and leaving the booking unchanged. -/
theorem claim_C1_counterexample :
    BookingRoutes.delete_booking "b1" exStore =
      .ok ("Booking cancelled successfully", ([] : BookingCRUD.Store),
        [.cancellationNotice "customer@example.com" exCompletedBooking,
         .descheduleEvent "vehicle-service-reminders-b1"]) := rfl

/-- C1 (amended): the code has no state machine: `delete_booking` succeeds
for every stored booking regardless of its status — including the terminal
`COMPLETED` and `CANCELLED` — removing it from the table (rather than
marking it `CANCELLED`) and emitting a cancellation-notice intent and a
descheduling intent; and `update_booking` applies any requested status
transition unconditionally.  No `StateTransitionError` exists in the
code. -/
theorem claim_C1_no_transition_guard :
    ∀ (store : BookingCRUD.Store) (id : String) (b : Booking),
      BookingCRUD.get_booking store id = some b →
      (BookingRoutes.delete_booking id store =
        .ok ("Booking cancelled successfully",
          store.filter (fun p => !(p.1 == id)),
          [.cancellationNotice "customer@example.com" b,
           .descheduleEvent ("vehicle-service-reminders-" ++ id)]))
      ∧ (∀ (u : BookingUpdate) (ts : String),
        BookingCRUD.update_booking store id u ts =
          some (BookingCRUD.applyUpdate b u ts,
            BookingCRUD.put_item store id (BookingCRUD.applyUpdate b u ts))) := by
  intro store id b hget
  constructor
  · unfold BookingRoutes.delete_booking
    rw [hget]
    rfl
  · intro u ts
    unfold BookingCRUD.update_booking
    rw [hget]

/-- C1 witness: the amended statement at the completed booking. -/
theorem claim_C1_no_transition_guard_witness :
    (BookingRoutes.delete_booking "b1" exStore =
      .ok ("Booking cancelled successfully", ([] : BookingCRUD.Store),
        [.cancellationNotice "customer@example.com" exCompletedBooking,
         .descheduleEvent "vehicle-service-reminders-b1"]))
    ∧ BookingCRUD.update_booking exStore "b1" cancelStatusUpdate "t1" =
        some (exCancelledBooking, [("b1", exCancelledBooking)]) :=
  ⟨(claim_C1_no_transition_guard exStore "b1" exCompletedBooking rfl).1,
   (claim_C1_no_transition_guard exStore "b1" exCompletedBooking rfl).2
     cancelStatusUpdate "t1"⟩

/-- C3: a full run of the `create_booking` handler on a valid request.  The
PENDING booking and the three intents (queue enqueue, confirmation notice,
reminder scheduled 24 hours = 86400 seconds before the booking instant) are
produced as the claim says, but the returned booking — and the stored one —
has `estimated_cost = none`, not the computed estimated total 175.50:
`BookingUpdate` has no `estimated_cost` field, so the attempted update sets
nothing, and its return value is discarded.  On a validation failure the
handler raises 400 and produces no booking and no intents. -/
theorem claim_C3_run :
    (BookingRoutes.create_booking exCreateData 63927482400
        "vehicle-service-reminders" "b1" "t0" [] =
      .ok (exNewBooking, [("b1", exNewBooking)],
        [.enqueueBookingRequest "b1" "c1" "OIL_CHANGE",
         .confirmationNotice "customer@example.com" exNewBooking,
         .reminderSchedule
           { status := "success"
             message := "Booking reminder scheduled successfully"
             rule_name := some "vehicle-service-reminders-b1"
             reminder_datetime := some (63927489600 - 86400) }]))
    ∧ exNewBooking.estimated_cost = none
    ∧ (CostCalculator.calculate_service_cost .OIL_CHANGE
        BookingRoutes.createBookingEstimatedHours false false
        0).estimated_total = 351/2
    ∧ BookingRoutes.create_booking exCreateData 63927487800
        "vehicle-service-reminders" "b1" "t0" [] =
      .error ⟨400, "Booking must be at least 1 hour in advance"⟩ := by
  have hp : parseIsoDateTime "2026-10-13T12:00:00" = some 63927489600 := by
    decide
  refine ⟨?_, rfl, ?_, ?_⟩
  · have hval : Validator.validate_booking_date "2026-10-13" "12:00:00"
        63927482400 =
        { is_valid := true
          message := "Valid booking date/time"
          booking_datetime := some 63927489600
          hours_until_booking := some 2 } := by
      simp [Validator.validate_booking_date, hp]
      norm_num [round2, halfEvenRound]
    simp only [BookingRoutes.create_booking, exCreateData]
    rw [hval]
    rfl
  · rw [calculate_service_cost_total]
    norm_num [costTotalRaw, CostCalculator.BASE_PRICES,
      CostCalculator.LABOR_RATE_PER_HOUR,
      CostCalculator.WEEKEND_SURCHARGE_PERCENT,
      CostCalculator.URGENT_SERVICE_SURCHARGE, CostCalculator.TAX_RATE,
      BookingRoutes.createBookingEstimatedHours, round2, halfEvenRound]
  · have hval : Validator.validate_booking_date "2026-10-13" "12:00:00"
        63927487800 =
        { is_valid := false
          message := "Booking must be at least 1 hour in advance"
          booking_datetime := some 63927489600
          hours_until_booking := none } := by
      simp [Validator.validate_booking_date, hp]
      norm_num
    simp only [BookingRoutes.create_booking, exCreateData]
    rw [hval]
    rfl

/-- C4: the result of `validate_booking_date` depends on the instant the
function reads from the ambient clock (`datetime.now()` in the Python
body): for the same `(date, time)` input the validation succeeds when the
clock reads two hours before the booking instant and fails when it reads
thirty minutes before it, so the "current time" is not an explicit
parameter of the Python function and identical `(date, time)` calls can
disagree. -/
theorem claim_C4_ambient_clock_dependence :
    Validator.validate_booking_date "2026-10-13" "12:00:00"
        (63927489600 - 7200) ≠
      Validator.validate_booking_date "2026-10-13" "12:00:00"
        (63927489600 - 1800) := by
  have hp : parseIsoDateTime "2026-10-13T12:00:00" = some 63927489600 := by
    decide
  have h1 : (Validator.validate_booking_date "2026-10-13" "12:00:00"
      (63927489600 - 7200)).is_valid = true := by
    simp [Validator.validate_booking_date, hp]
    norm_num
  have h2 : (Validator.validate_booking_date "2026-10-13" "12:00:00"
      (63927489600 - 1800)).is_valid = false := by
    simp [Validator.validate_booking_date, hp]
    norm_num
  intro h
  rw [h, h2] at h1
  exact Bool.false_ne_true h1

/-- C6 counterexample: for the service type string `"SOMETHING"`, which is
not in the mileage-requirements table, `validate_service_eligibility` does
not fail: it silently defaults the required interval to 0 and reports the
vehicle eligible. -/
theorem claim_C6_counterexample :
    Validator.validate_service_eligibility 100 0 "SOMETHING" =
      { is_eligible := true
        service_type := "SOMETHING"
        current_mileage := 100
        last_service_mileage := 0
        mileage_since_last_service := 100
        required_mileage := 0
        message := "Vehicle is eligible for service" } := rfl

/-- C6 (amended): the required intervals are OIL_CHANGE 3000,
TIRE_ROTATION 5000, BRAKE_SERVICE 10000, ENGINE_DIAGNOSTIC 0,
FULL_SERVICE 10000, GENERAL_REPAIR 0; the vehicle is eligible exactly when
`current_mileage - last_service_mileage` reaches the required interval; on
ineligibility the message reports the exact remaining mileage; and a
service type absent from the table is given a defaulted required interval
of 0 (the lookup defaults instead of failing). -/
theorem claim_C6_eligibility :
    (∀ (m l : ℤ),
      (Validator.validate_service_eligibility m l
        "OIL_CHANGE").required_mileage = 3000
      ∧ (Validator.validate_service_eligibility m l
        "TIRE_ROTATION").required_mileage = 5000
      ∧ (Validator.validate_service_eligibility m l
        "BRAKE_SERVICE").required_mileage = 10000
      ∧ (Validator.validate_service_eligibility m l
        "ENGINE_DIAGNOSTIC").required_mileage = 0
      ∧ (Validator.validate_service_eligibility m l
        "FULL_SERVICE").required_mileage = 10000
      ∧ (Validator.validate_service_eligibility m l
        "GENERAL_REPAIR").required_mileage = 0)
    ∧ (∀ (m l : ℤ) (st : String),
      ((Validator.validate_service_eligibility m l st).is_eligible = true ↔
        (Validator.validate_service_eligibility m l st).required_mileage ≤
          m - l)
      ∧ ((Validator.validate_service_eligibility m l st).is_eligible =
          false →
        (Validator.validate_service_eligibility m l st).message =
          "Vehicle needs " ++
            toString ((Validator.validate_service_eligibility m l
              st).required_mileage - (m - l)) ++
            " more miles before next service")
      ∧ (Validator.mileage_requirements.lookup st = none →
        (Validator.validate_service_eligibility m l st).required_mileage =
          0)) := by
  constructor
  · intro m l
    exact ⟨rfl, rfl, rfl, rfl, rfl, rfl⟩
  · intro m l st
    refine ⟨?_, ?_, ?_⟩
    · simp [Validator.validate_service_eligibility]
    · intro h
      simp only [Validator.validate_service_eligibility] at h ⊢
      rw [h]
      rfl
    · intro h
      simp [Validator.validate_service_eligibility, h]

/-- C6 witness: the remaining-mileage message for an ineligible oil change
and the defaulted requirement for an unknown service type. -/
theorem claim_C6_eligibility_witness :
    (Validator.validate_service_eligibility 1000 0 "OIL_CHANGE").message =
      "Vehicle needs 2000 more miles before next service"
    ∧ (Validator.validate_service_eligibility 100 0
        "SOMETHING").required_mileage = 0 :=
  ⟨((claim_C6_eligibility.2 1000 0 "OIL_CHANGE").2.1 rfl).trans rfl,
   (claim_C6_eligibility.2 100 0 "SOMETHING").2.2 rfl⟩

/-- C7 counterexample: when the configured EventBridge rule-name base is
not the shipped default (here `"custom-rules"`), the rule name under which
the reminder is scheduled differs from the hardcoded
`vehicle-service-reminders-<id>` key that the cancellation path
deschedules, so the round trip fails as a claim about every
configuration. -/
theorem claim_C7_counterexample :
    (SchedulerService.schedule_booking_reminder "custom-rules" "b1"
        "2026-10-13T12:00:00").rule_name ≠
      some ("vehicle-service-reminders-" ++ "b1") := by decide

/-- C7 (amended): whenever the configured rule-name base equals its shipped
default `vehicle-service-reminders`, the round trip holds for every booking
id: the reminder is scheduled under `scheduleRuleName base id` — derivable
from the booking id alone — and cancelling the booking deschedules exactly
that key (the cancellation path hardcodes the default base). -/
theorem claim_C7_key_roundtrip :
    ∀ (base bookingId dtStr : String) (store : BookingCRUD.Store)
      (b : Booking) (inst : ℤ),
      base = SchedulerService.defaultRuleNameBase →
      parseIsoDateTime dtStr = some inst →
      BookingCRUD.get_booking store bookingId = some b →
      ((SchedulerService.schedule_booking_reminder base bookingId
          dtStr).rule_name =
        some (SchedulerService.scheduleRuleName base bookingId))
      ∧ BookingRoutes.delete_booking bookingId store =
          .ok ("Booking cancelled successfully",
            store.filter (fun p => !(p.1 == bookingId)),
            [.cancellationNotice "customer@example.com" b,
             .descheduleEvent
               (SchedulerService.scheduleRuleName base bookingId)]) := by
  intro base bookingId dtStr store b inst hbase hparse hget
  subst hbase
  constructor
  · unfold SchedulerService.schedule_booking_reminder
    rw [hparse]
  · unfold BookingRoutes.delete_booking
    rw [hget]
    rfl

/-- C7 witness: the round trip at the default base and booking id `"b1"`. -/
theorem claim_C7_key_roundtrip_witness :
    ((SchedulerService.schedule_booking_reminder "vehicle-service-reminders"
        "b1" "2026-10-13T12:00:00").rule_name =
      some "vehicle-service-reminders-b1")
    ∧ BookingRoutes.delete_booking "b1" exStore =
        .ok ("Booking cancelled successfully", ([] : BookingCRUD.Store),
          [.cancellationNotice "customer@example.com" exCompletedBooking,
           .descheduleEvent "vehicle-service-reminders-b1"]) :=
  ⟨(claim_C7_key_roundtrip "vehicle-service-reminders" "b1"
      "2026-10-13T12:00:00" exStore exCompletedBooking 63927489600 rfl
      (by decide) rfl).1,
   (claim_C7_key_roundtrip "vehicle-service-reminders" "b1"
      "2026-10-13T12:00:00" exStore exCompletedBooking 63927489600 rfl
      (by decide) rfl).2⟩


/-- C8: `validate_booking_date` fails with three distinct error kinds —
malformed date/time, instant not strictly after `now`, instant less than
one hour ahead of `now` — and on success returns the hours-until-booking
rounded to two decimals; in particular it rejects `now = instant - 59
minutes` (i.e. a booking 59 minutes ahead) and accepts a booking 61
minutes ahead, whose hours-until-booking is 1.02. -/
theorem claim_C8_date_validation :
    (∀ (d t : String) (now : ℤ),
      parseIsoDateTime (d ++ "T" ++ t) = none →
      Validator.validate_booking_date d t now =
        { is_valid := false
          message := "Invalid date/time format: "
          booking_datetime := none
          hours_until_booking := none })
    ∧ (∀ (d t : String) (now b : ℤ),
      parseIsoDateTime (d ++ "T" ++ t) = some b → b ≤ now →
      Validator.validate_booking_date d t now =
        { is_valid := false
          message := "Booking date/time must be in the future"
          booking_datetime := some b
          hours_until_booking := none })
    ∧ (∀ (d t : String) (now b : ℤ),
      parseIsoDateTime (d ++ "T" ++ t) = some b → now < b → b - now < 3600 →
      Validator.validate_booking_date d t now =
        { is_valid := false
          message := "Booking must be at least 1 hour in advance"
          booking_datetime := some b
          hours_until_booking := none })
    ∧ (∀ (d t : String) (now b : ℤ),
      parseIsoDateTime (d ++ "T" ++ t) = some b → 3600 ≤ b - now →
      Validator.validate_booking_date d t now =
        { is_valid := true
          message := "Valid booking date/time"
          booking_datetime := some b
          hours_until_booking :=
            some (round2 (((b - now : ℤ) : ℚ) / 3600)) })
    ∧ (∀ (d t : String) (now b : ℤ),
      parseIsoDateTime (d ++ "T" ++ t) = some b → now = b - 59 * 60 →
      (Validator.validate_booking_date d t now).is_valid = false
      ∧ (Validator.validate_booking_date d t now).message =
          "Booking must be at least 1 hour in advance")
    ∧ (∀ (d t : String) (now b : ℤ),
      parseIsoDateTime (d ++ "T" ++ t) = some b → now = b - 61 * 60 →
      (Validator.validate_booking_date d t now).is_valid = true
      ∧ (Validator.validate_booking_date d t now).hours_until_booking =
          some (51/50)) := by
  have hmal : ∀ (d t : String) (now : ℤ),
      parseIsoDateTime (d ++ "T" ++ t) = none →
      Validator.validate_booking_date d t now =
        { is_valid := false
          message := "Invalid date/time format: "
          booking_datetime := none
          hours_until_booking := none } := by
    intro d t now hp
    unfold Validator.validate_booking_date
    rw [hp]
  have hpast : ∀ (d t : String) (now b : ℤ),
      parseIsoDateTime (d ++ "T" ++ t) = some b → b ≤ now →
      Validator.validate_booking_date d t now =
        { is_valid := false
          message := "Booking date/time must be in the future"
          booking_datetime := some b
          hours_until_booking := none } := by
    intro d t now b hp hle
    unfold Validator.validate_booking_date
    rw [hp]
    simp [hle]
  have hsoon : ∀ (d t : String) (now b : ℤ),
      parseIsoDateTime (d ++ "T" ++ t) = some b → now < b → b - now < 3600 →
      Validator.validate_booking_date d t now =
        { is_valid := false
          message := "Booking must be at least 1 hour in advance"
          booking_datetime := some b
          hours_until_booking := none } := by
    intro d t now b hp hlt hlt2
    unfold Validator.validate_booking_date
    rw [hp]
    have h1 : ¬ b ≤ now := not_le.mpr hlt
    have h2 : ((b - now : ℤ) : ℚ) / 3600 < 1 := by
      rw [div_lt_one (by norm_num : (0:ℚ) < 3600)]
      exact_mod_cast hlt2
    dsimp only
    rw [if_neg h1, if_pos h2]
  have hok : ∀ (d t : String) (now b : ℤ),
      parseIsoDateTime (d ++ "T" ++ t) = some b → 3600 ≤ b - now →
      Validator.validate_booking_date d t now =
        { is_valid := true
          message := "Valid booking date/time"
          booking_datetime := some b
          hours_until_booking :=
            some (round2 (((b - now : ℤ) : ℚ) / 3600)) } := by
    intro d t now b hp hle
    unfold Validator.validate_booking_date
    rw [hp]
    have h1 : ¬ b ≤ now := by omega
    have h2 : ¬ ((b - now : ℤ) : ℚ) / 3600 < 1 := by
      rw [not_lt]
      rw [one_le_div (by norm_num : (0:ℚ) < 3600)]
      exact_mod_cast hle
    dsimp only
    rw [if_neg h1, if_neg h2]
  refine ⟨hmal, hpast, hsoon, hok, ?_, ?_⟩
  · intro d t now b hp hnow
    subst hnow
    have h := hsoon d t (b - 59 * 60) b hp (by omega) (by omega)
    rw [h]
    exact ⟨rfl, rfl⟩
  · intro d t now b hp hnow
    subst hnow
    have h := hok d t (b - 61 * 60) b hp (by omega)
    rw [h]
    refine ⟨rfl, ?_⟩
    have hcast : ((b - (b - 61 * 60) : ℤ) : ℚ) = 3660 := by
      have : (b - (b - 61 * 60) : ℤ) = 3660 := by omega
      rw [this]
      norm_num
    simp only [hcast]
    norm_num [round2, halfEvenRound]

/-- C8 witness: the four outcomes at concrete inputs, including the
59-minute rejection and 61-minute acceptance around the fixed instant
2026-10-13T12:00:00. -/
theorem claim_C8_date_validation_witness :
    (Validator.validate_booking_date "garbage" "12:00" 0 =
      { is_valid := false
        message := "Invalid date/time format: "
        booking_datetime := none
        hours_until_booking := none })
    ∧ (Validator.validate_booking_date "2026-10-13" "12:00:00" 63927489600 =
      { is_valid := false
        message := "Booking date/time must be in the future"
        booking_datetime := some 63927489600
        hours_until_booking := none })
    ∧ ((Validator.validate_booking_date "2026-10-13" "12:00:00"
        (63927489600 - 59 * 60)).is_valid = false)
    ∧ ((Validator.validate_booking_date "2026-10-13" "12:00:00"
        (63927489600 - 61 * 60)).is_valid = true)
    ∧ ((Validator.validate_booking_date "2026-10-13" "12:00:00"
        (63927489600 - 61 * 60)).hours_until_booking = some (51/50)) :=
  ⟨claim_C8_date_validation.1 "garbage" "12:00" 0 (by decide),
   claim_C8_date_validation.2.1 "2026-10-13" "12:00:00" 63927489600
     63927489600 (by decide) (le_refl _),
   (claim_C8_date_validation.2.2.2.2.1 "2026-10-13" "12:00:00"
     (63927489600 - 59 * 60) 63927489600 (by decide) rfl).1,
   (claim_C8_date_validation.2.2.2.2.2 "2026-10-13" "12:00:00"
     (63927489600 - 61 * 60) 63927489600 (by decide) rfl).1,
   (claim_C8_date_validation.2.2.2.2.2 "2026-10-13" "12:00:00"
     (63927489600 - 61 * 60) 63927489600 (by decide) rfl).2⟩

/-- A sample report input: one pending booking with no completed ones. -/
def exPerfList : List ReportGenerator.RBooking :=
  [{ status := some "PENDING"
     service_type := some "OIL_CHANGE"
     actual_cost := none
     estimated_cost := some 100
     booking_date := none }]

/-- The performance-report body `generate_service_center_performance`
produces for `exPerfList`: one booking, none completed, all rates and
averages 0. -/
def exPerfBody : ReportGenerator.PerfReportBody :=
  { total_bookings := 1
    completed_bookings := 0
    cancelled_bookings := 0
    completion_rate := 0
    cancellation_rate := 0
    total_revenue := 0
    average_revenue_per_booking := 0 }

/-- C9: the report aggregators never fail: each of the four report
functions returns a `"success"` result on every input; on the empty
collection each returns the empty report (in particular
`generate_customer_service_history []` is the zeroed/empty report); and
the guarded average over completed bookings yields 0 whenever the
completed count is 0 instead of dividing by zero. -/
theorem claim_C9_report_guards :
    (ReportGenerator.generate_customer_service_history [] =
      { status := "success", message := "No service history found",
        report := none })
    ∧ (ReportGenerator.generate_booking_summary_report [] =
      { status := "success", message := "No bookings to generate report",
        report := none })
    ∧ (ReportGenerator.generate_service_center_performance [] =
      { status := "success", message := "No bookings found for service center",
        report := none })
    ∧ (∀ (m y : ℕ), ReportGenerator.generate_monthly_report m y [] =
      { status := "success"
        message := "No bookings found for " ++ toString m ++ "/" ++ toString y
        report := none })
    ∧ (∀ (bs : List ReportGenerator.RBooking),
      (ReportGenerator.generate_booking_summary_report bs).status = "success"
      ∧ (ReportGenerator.generate_customer_service_history bs).status =
          "success"
      ∧ (ReportGenerator.generate_service_center_performance bs).status =
          "success")
    ∧ (∀ (m y : ℕ) (bs : List ReportGenerator.RBooking),
      (ReportGenerator.generate_monthly_report m y bs).status = "success")
    ∧ (∀ (bs : List ReportGenerator.RBooking)
        (r : ReportGenerator.PerfReportBody),
      (ReportGenerator.generate_service_center_performance bs).report =
        some r →
      r.completed_bookings = 0 → r.average_revenue_per_booking = 0) := by
  refine ⟨rfl, rfl, rfl, fun m y => rfl, ?_, ?_, ?_⟩
  · intro bs
    refine ⟨?_, ?_, ?_⟩
    · unfold ReportGenerator.generate_booking_summary_report
      split <;> rfl
    · unfold ReportGenerator.generate_customer_service_history
      split <;> rfl
    · unfold ReportGenerator.generate_service_center_performance
      split <;> rfl
  · intro m y bs
    unfold ReportGenerator.generate_monthly_report
    dsimp only
    split <;> rfl
  · intro bs r hrep hcomp
    unfold ReportGenerator.generate_service_center_performance at hrep
    by_cases h : bs.isEmpty
    · simp [h] at hrep
    · simp only [h, if_false, Bool.false_eq_true] at hrep
      rw [Option.some_inj] at hrep
      subst hrep
      simp only at hcomp
      simp only [hcomp]
      norm_num

/-- C9 witness: on a list with one pending booking the performance report
is produced with a zero average revenue per completed booking. -/
theorem claim_C9_report_guards_witness :
    exPerfBody.average_revenue_per_booking = 0 :=
  claim_C9_report_guards.2.2.2.2.2.2 exPerfList exPerfBody
    (by
      simp [ReportGenerator.generate_service_center_performance, exPerfList,
        exPerfBody]
      norm_num [round2, halfEvenRound])
    rfl

end VehicleBooking
